import Mathlib

/-!
# Verification of the HotTubController ESP32 scheduler and backoff timer

Shallow embedding of `src/esp32/lib/ReportScheduler/report_scheduler.cpp`
and the `BackoffTimer` of `src/esp32/lib/ApiClient/api_client.cpp`.

Machine integers: `uint32_t` / `unsigned long` values are modelled as `Nat`
with explicit reduction modulo `2^32` wherever the C++ code performs
unsigned wrap-around arithmetic; C++ `int` values are modelled as `Int`.
-/

/-- `2^32`, the modulus of `uint32_t` / ESP32 `unsigned long` arithmetic. -/
def U32MOD : Nat := 4294967296

/-- Wrap-around subtraction of two `uint32_t` values (`a - b` in C++). -/
def u32sub (a b : Nat) : Nat :=
  (U32MOD + a % U32MOD - b % U32MOD) % U32MOD

/-- `static_cast<uint32_t>(i)` for a C++ `int` `i` (two's complement wrap). -/
def intToU32 (i : Int) : Nat :=
  (i % (U32MOD : Int)).toNat

namespace ReportScheduler

/-- `enum SchedulerState` from `report_scheduler.h`. -/
inductive SchedulerState where
  | stateBootSend
  | stateIntervalWait
  | stateAlignWait
  | stateReadyToSend
deriving DecidableEq, Repr

export SchedulerState (stateBootSend stateIntervalWait stateAlignWait stateReadyToSend)

/-- One observation of the injected `TimeProvider` (the Clock Source):
`getCurrentTime()`, `getSecondOfMinute()` and `isTimeSynced()`. -/
structure TimeObs where
  currentTime : Nat
  secondOfMinute : Int
  timeSynced : Bool
deriving DecidableEq, Repr

/-- The mutable fields of class `ReportScheduler`. -/
structure Scheduler where
  intervalSeconds : Int
  alignToSecond : Int
  state : SchedulerState
  lastSendTime : Nat
  intervalStartTime : Nat
  alignWaitStartTime : Nat
deriving DecidableEq, Repr

def SCHED_DEFAULT_INTERVAL_SEC : Int := 300
def SCHED_DEFAULT_ALIGN_SECOND : Int := 53
def SCHED_MIN_INTERVAL_FOR_ALIGNMENT : Int := 60
def SCHED_ALIGNMENT_WINDOW_END : Int := 59
def SCHED_MAX_ALIGN_WAIT_SEC : Nat := 65
def SCHED_MIN_INTERVAL_SEC : Int := 10
def SCHED_MAX_INTERVAL_SEC : Int := 1800

/-- `ReportScheduler::clampAlignSecond`. -/
def clampAlignSecond (second : Int) : Int :=
  if second < 0 ∨ second > 59 then SCHED_DEFAULT_ALIGN_SECOND else second

/-- `ReportScheduler::clampInterval`. -/
def clampInterval (interval : Int) : Int :=
  if interval < SCHED_MIN_INTERVAL_SEC then SCHED_MIN_INTERVAL_SEC
  else if interval > SCHED_MAX_INTERVAL_SEC then SCHED_MAX_INTERVAL_SEC
  else interval

/-- The `ReportScheduler` constructor. -/
def mkScheduler (intervalSeconds alignToSecond : Int) : Scheduler :=
  { intervalSeconds := clampInterval intervalSeconds
    alignToSecond := clampAlignSecond alignToSecond
    state := stateBootSend
    lastSendTime := 0
    intervalStartTime := 0
    alignWaitStartTime := 0 }

/-- `ReportScheduler::hasIntervalElapsed`. -/
def hasIntervalElapsed (s : Scheduler) (t : TimeObs) : Bool :=
  u32sub t.currentTime s.intervalStartTime ≥ intToU32 s.intervalSeconds

/-- `ReportScheduler::isAlignedSecond`. -/
def isAlignedSecond (s : Scheduler) (t : TimeObs) : Bool :=
  t.secondOfMinute ≥ s.alignToSecond ∧ t.secondOfMinute ≤ SCHED_ALIGNMENT_WINDOW_END

/-- `ReportScheduler::shouldSkipAlignment`. -/
def shouldSkipAlignment (s : Scheduler) (t : TimeObs) : Bool :=
  if s.intervalSeconds < SCHED_MIN_INTERVAL_FOR_ALIGNMENT then true
  else if ¬ t.timeSynced then true
  else false

/-- `ReportScheduler::hasAlignWaitTimedOut`. -/
def hasAlignWaitTimedOut (s : Scheduler) (t : TimeObs) : Bool :=
  u32sub t.currentTime s.alignWaitStartTime ≥ SCHED_MAX_ALIGN_WAIT_SEC

/-- `ReportScheduler::shouldSend`: returns the boolean and the scheduler
after the call's state mutations. -/
def shouldSend (s : Scheduler) (t : TimeObs) : Bool × Scheduler :=
  match s.state with
  | stateBootSend => (true, s)
  | stateIntervalWait =>
      if hasIntervalElapsed s t then
        if shouldSkipAlignment s t then
          (true, { s with state := stateReadyToSend })
        else
          let s1 := { s with state := stateAlignWait,
                             alignWaitStartTime := t.currentTime }
          if isAlignedSecond s1 t then
            (true, { s1 with state := stateReadyToSend })
          else
            (false, s1)
      else
        (false, s)
  | stateAlignWait =>
      if hasAlignWaitTimedOut s t then
        (true, { s with state := stateReadyToSend })
      else if isAlignedSecond s t then
        (true, { s with state := stateReadyToSend })
      else
        (false, s)
  | stateReadyToSend => (true, s)

/-- `ReportScheduler::recordSend`. -/
def recordSend (s : Scheduler) (t : TimeObs) : Scheduler :=
  { s with lastSendTime := t.currentTime
           intervalStartTime := t.currentTime
           state := stateIntervalWait }

/-- `ReportScheduler::setInterval`. -/
def setInterval (s : Scheduler) (seconds : Int) : Scheduler :=
  { s with intervalSeconds := clampInterval seconds }

/-- `ReportScheduler::setAlignSecond`. -/
def setAlignSecond (s : Scheduler) (second : Int) : Scheduler :=
  { s with alignToSecond := clampAlignSecond second }

/-- `ReportScheduler::getSecondsUntilSend`. -/
def getSecondsUntilSend (s : Scheduler) (t : TimeObs) : Int :=
  if s.state = stateBootSend ∨ s.state = stateReadyToSend then 0
  else if s.state = stateIntervalWait then
    let elapsed := u32sub t.currentTime s.intervalStartTime
    if elapsed ≥ intToU32 s.intervalSeconds then
      if shouldSkipAlignment s t then 0
      else if t.secondOfMinute ≥ s.alignToSecond then 0
      else s.alignToSecond - t.secondOfMinute
    else
      s.intervalSeconds - (elapsed : Int)
  else if s.state = stateAlignWait then
    if t.secondOfMinute ≥ s.alignToSecond ∧
        t.secondOfMinute ≤ SCHED_ALIGNMENT_WINDOW_END then 0
    else if t.secondOfMinute < s.alignToSecond then
      s.alignToSecond - t.secondOfMinute
    else
      (60 - t.secondOfMinute) + s.alignToSecond
  else 0

end ReportScheduler

namespace BackoffTimer

def BACKOFF_START_MS : Nat := 10000
def BACKOFF_MAX_MS : Nat := 300000
def REBOOT_AFTER_FAILURE_MS : Nat := 1800000

/-- The fields of class `BackoffTimer` (`unsigned long` as `Nat`). -/
structure Backoff where
  currentDelayMs : Nat
  firstFailureTime : Nat
  inFailureState : Bool
deriving DecidableEq, Repr

/-- The `BackoffTimer` constructor. -/
def mkBackoff : Backoff :=
  { currentDelayMs := BACKOFF_START_MS, firstFailureTime := 0,
    inFailureState := false }

/-- `BackoffTimer::getDelayMs`. -/
def getDelayMs (b : Backoff) : Nat := b.currentDelayMs

/-- `BackoffTimer::recordFailure`; `now` is the value of `millis()`. -/
def recordFailure (b : Backoff) (now : Nat) : Backoff :=
  if ¬ b.inFailureState then
    { b with inFailureState := true, firstFailureTime := now,
             currentDelayMs := BACKOFF_START_MS }
  else
    { b with currentDelayMs := min (b.currentDelayMs * 2 % U32MOD) BACKOFF_MAX_MS }

/-- `BackoffTimer::recordSuccess`. -/
def recordSuccess (b : Backoff) : Backoff :=
  { b with inFailureState := false, firstFailureTime := 0,
           currentDelayMs := BACKOFF_START_MS }

/-- `BackoffTimer::getFailureDurationMs`; `now` is the value of `millis()`. -/
def getFailureDurationMs (b : Backoff) (now : Nat) : Nat :=
  if ¬ b.inFailureState then 0
  else u32sub now b.firstFailureTime

/-- `BackoffTimer::shouldReboot`; `now` is the value of `millis()`. -/
def shouldReboot (b : Backoff) (now : Nat) : Bool :=
  if ¬ b.inFailureState then false
  else getFailureDurationMs b now ≥ REBOOT_AFTER_FAILURE_MS

/-- `n` consecutive `recordFailure()` calls starting from a fresh timer,
the `k`-th call observing `millis() = ts k`. -/
def afterFailures (ts : Nat → Nat) : Nat → Backoff
  | 0 => mkBackoff
  | n + 1 => recordFailure (afterFailures ts n) (ts n)

end BackoffTimer

open ReportScheduler BackoffTimer

/-! ## Helper lemmas -/

lemma u32sub_self (a : Nat) : u32sub a a = 0 := by
  simp only [u32sub, U32MOD]
  omega

lemma u32sub_eq_sub (a b : Nat) (hba : b ≤ a) (hlt : a - b < U32MOD) :
    u32sub a b = a - b := by
  simp only [u32sub, U32MOD] at *
  omega

lemma afterFailures_spec (ts : Nat → Nat) :
    ∀ n, (afterFailures ts (n + 1)).inFailureState = true ∧
      (afterFailures ts (n + 1)).currentDelayMs = min (10000 * 2 ^ n) 300000 := by
  intro n
  induction n with
  | zero =>
      constructor
      · rfl
      · simp [afterFailures, recordFailure, mkBackoff, BACKOFF_START_MS]
  | succ m ih =>
      obtain ⟨hf, hd⟩ := ih
      have hstep : afterFailures ts (m + 1 + 1) =
          { afterFailures ts (m + 1) with
            currentDelayMs :=
              min ((afterFailures ts (m + 1)).currentDelayMs * 2 % U32MOD)
                BACKOFF_MAX_MS } := by
        show recordFailure _ _ = _
        unfold recordFailure
        rw [if_neg (by simp [hf])]
      rw [hstep]
      refine ⟨hf, ?_⟩
      show min ((afterFailures ts (m + 1)).currentDelayMs * 2 % U32MOD) BACKOFF_MAX_MS
          = min (10000 * 2 ^ (m + 1)) 300000
      have h1 : (afterFailures ts (m + 1)).currentDelayMs * 2 % U32MOD
          = (afterFailures ts (m + 1)).currentDelayMs * 2 := by
        apply Nat.mod_eq_of_lt
        rw [hd]
        have := min_le_right (10000 * 2 ^ m) 300000
        unfold U32MOD
        omega
      rw [h1, hd, pow_succ, ← mul_assoc]
      unfold BACKOFF_MAX_MS
      generalize 10000 * 2 ^ m = a
      omega

/-! ## Claims -/

/-- C1, counterexample: starting from a stored alignment of 30, the invalid
input −5 does NOT leave the prior value unchanged — `setAlignSecond(-5)`
replaces 30 by the default 53. -/
theorem C1_counterexample :
    (setAlignSecond (mkScheduler 300 53) 30).alignToSecond = 30 ∧
    (setAlignSecond (setAlignSecond (mkScheduler 300 53) 30) (-5)).alignToSecond = 53 ∧
    (53 : Int) ≠ 30 := by
  refine ⟨by decide, by decide, by decide⟩

/-- C1 (amended): `setAlignSecond` with an invalid input (`second < 0` or
`second > 59`) sets the stored alignment to the default 53 regardless of the
prior value; inputs 0 and 59 are accepted and stored as-is; at construction
an invalid `alignToSecond` argument falls back to the default 53. -/
theorem C1_setAlignSecond_default (s : Scheduler) (second : Int)
    (h : second < 0 ∨ second > 59) :
    (setAlignSecond s second).alignToSecond = 53 ∧
    (setAlignSecond s 0).alignToSecond = 0 ∧
    (setAlignSecond s 59).alignToSecond = 59 ∧
    (mkScheduler 300 second).alignToSecond = 53 := by
  refine ⟨?_, ?_, ?_, ?_⟩
  · show clampAlignSecond second = 53
    unfold clampAlignSecond
    rw [if_pos h]
    rfl
  · show clampAlignSecond 0 = 0
    decide
  · show clampAlignSecond 59 = 59
    decide
  · show clampAlignSecond second = 53
    unfold clampAlignSecond
    rw [if_pos h]
    rfl

/-- Witness for C1 at a concrete scheduler and the invalid input 60. -/
theorem C1_setAlignSecond_default_witness :
    (setAlignSecond (mkScheduler 300 20) 60).alignToSecond = 53 ∧
    (setAlignSecond (mkScheduler 300 20) 0).alignToSecond = 0 ∧
    (setAlignSecond (mkScheduler 300 20) 59).alignToSecond = 59 ∧
    (mkScheduler 300 60).alignToSecond = 53 :=
  C1_setAlignSecond_default (mkScheduler 300 20) 60 (by norm_num)

/-- C2: a fresh `BackoffTimer` has delay 10000 ms; after `n ≥ 1` consecutive
`recordFailure()` calls the delay is `min (10000 · 2^(n−1)) 300000` ms
(so 10000, 20000, 40000, … capped at 300000); one `recordSuccess()` resets
the delay to 10000 ms regardless of the prior streak. -/
theorem C2_backoff_delays (ts : Nat → Nat) (n : Nat) (hn : 1 ≤ n) (b : Backoff) :
    getDelayMs mkBackoff = 10000 ∧
    getDelayMs (afterFailures ts n) = min (10000 * 2 ^ (n - 1)) 300000 ∧
    getDelayMs (recordSuccess b) = 10000 := by
  refine ⟨rfl, ?_, rfl⟩
  obtain ⟨m, rfl⟩ : ∃ m, n = m + 1 := ⟨n - 1, by omega⟩
  simpa using (afterFailures_spec ts m).2

/-- Witness for C2 after 20 consecutive failures: delay capped at 300000 ms. -/
theorem C2_backoff_delays_witness :
    getDelayMs mkBackoff = 10000 ∧
    getDelayMs (afterFailures (fun _ => 0) 20) = min (10000 * 2 ^ (20 - 1)) 300000 ∧
    getDelayMs (recordSuccess mkBackoff) = 10000 :=
  C2_backoff_delays (fun _ => 0) 20 (by norm_num) mkBackoff

/-- C4: in `IntervalWait` with the interval elapsed, if `intervalSeconds < 60`
or the clock is not synchronized, `shouldSend()` returns true on that same
call and transitions directly to `ReadyToSend`. -/
theorem C4_skip_alignment (s : Scheduler) (t : TimeObs)
    (h1 : s.state = stateIntervalWait)
    (h2 : hasIntervalElapsed s t = true)
    (h3 : s.intervalSeconds < 60 ∨ t.timeSynced = false) :
    (shouldSend s t).1 = true ∧ (shouldSend s t).2.state = stateReadyToSend := by
  have hskip : shouldSkipAlignment s t = true := by
    unfold shouldSkipAlignment SCHED_MIN_INTERVAL_FOR_ALIGNMENT
    rcases h3 with h | h
    · rw [if_pos h]
    · rw [h]
      simp
  simp [shouldSend, h1, h2, hskip]

/-- Witness for C4: interval 30 s (< 60), elapsed; send fires immediately. -/
theorem C4_skip_alignment_witness :
    (shouldSend ⟨30, 53, stateIntervalWait, 0, 0, 0⟩ ⟨100, 10, true⟩).1 = true ∧
    (shouldSend ⟨30, 53, stateIntervalWait, 0, 0, 0⟩ ⟨100, 10, true⟩).2.state
      = stateReadyToSend :=
  C4_skip_alignment ⟨30, 53, stateIntervalWait, 0, 0, 0⟩ ⟨100, 10, true⟩
    rfl (by decide) (Or.inl (by norm_num))

/-- C5: in `AlignWait`, once `now − alignWaitStartTime` (32-bit wrap-around
subtraction) reaches 65 seconds, `shouldSend()` returns true and transitions
to `ReadyToSend`, regardless of the second-of-minute. -/
theorem C5_alignWait_timeout (s : Scheduler) (t : TimeObs)
    (h1 : s.state = stateAlignWait)
    (h2 : 65 ≤ u32sub t.currentTime s.alignWaitStartTime) :
    (shouldSend s t).1 = true ∧ (shouldSend s t).2.state = stateReadyToSend := by
  have hto : hasAlignWaitTimedOut s t = true := by
    simp only [hasAlignWaitTimedOut, SCHED_MAX_ALIGN_WAIT_SEC, ge_iff_le,
      decide_eq_true_eq]
    exact h2
  simp [shouldSend, h1, hto]

/-- Witness for C5 at a concrete scheduler 100 s into the alignment wait. -/
theorem C5_alignWait_timeout_witness :
    (shouldSend ⟨300, 53, stateAlignWait, 0, 0, 0⟩ ⟨100, 10, true⟩).1 = true ∧
    (shouldSend ⟨300, 53, stateAlignWait, 0, 0, 0⟩ ⟨100, 10, true⟩).2.state
      = stateReadyToSend :=
  C5_alignWait_timeout ⟨300, 53, stateAlignWait, 0, 0, 0⟩ ⟨100, 10, true⟩
    rfl (by decide)

/-- C10: in `BootSend`, `shouldSend()` returns true and changes no field of
the scheduler (so no number of calls exits `BootSend`); `recordSend()` is
what transitions the machine out of `BootSend`, into `IntervalWait`. -/
theorem C10_bootSend_frame (s : Scheduler) (t : TimeObs)
    (h : s.state = stateBootSend) :
    shouldSend s t = (true, s) ∧ (recordSend s t).state = stateIntervalWait := by
  constructor
  · simp [shouldSend, h]
  · rfl

/-- Witness for C10 at a freshly constructed scheduler. -/
theorem C10_bootSend_frame_witness :
    shouldSend (mkScheduler 300 53) ⟨1000, 30, true⟩ = (true, mkScheduler 300 53) ∧
    (recordSend (mkScheduler 300 53) ⟨1000, 30, true⟩).state = stateIntervalWait :=
  C10_bootSend_frame (mkScheduler 300 53) ⟨1000, 30, true⟩ rfl

/-- C3: in `AlignWait` with the wait under 65 s, `shouldSend()` returns true
exactly when the second-of-minute lies in `[alignSecond, 59]` (transitioning
to `ReadyToSend`), and returns false leaving the scheduler unchanged (still
`AlignWait`) for every second strictly below `alignSecond`. -/
theorem C3_align_window (s : Scheduler) (t : TimeObs)
    (h1 : s.state = stateAlignWait)
    (h2 : u32sub t.currentTime s.alignWaitStartTime < 65)
    (h3 : 0 ≤ t.secondOfMinute) (h4 : t.secondOfMinute ≤ 59) :
    ((shouldSend s t).1 = true ↔
      s.alignToSecond ≤ t.secondOfMinute ∧ t.secondOfMinute ≤ 59) ∧
    ((shouldSend s t).1 = true → (shouldSend s t).2.state = stateReadyToSend) ∧
    ((shouldSend s t).1 = false → (shouldSend s t).2 = s) := by
  have hto : hasAlignWaitTimedOut s t = false := by
    simp only [hasAlignWaitTimedOut, SCHED_MAX_ALIGN_WAIT_SEC, ge_iff_le,
      decide_eq_false_iff_not, not_le]
    exact h2
  by_cases hal : s.alignToSecond ≤ t.secondOfMinute
  · have hA : isAlignedSecond s t = true := by
      simp only [isAlignedSecond, SCHED_ALIGNMENT_WINDOW_END, ge_iff_le,
        decide_eq_true_eq]
      exact ⟨hal, h4⟩
    simp [shouldSend, h1, hto, hA, hal, h4]
  · have hA : isAlignedSecond s t = false := by
      simp only [isAlignedSecond, SCHED_ALIGNMENT_WINDOW_END, ge_iff_le,
        decide_eq_false_iff_not]
      exact fun hc => hal hc.1
    simp [shouldSend, h1, hto, hA, hal]

/-- Witness for C3: alignment target 53, current second 56, 10 s into the
wait: the scheduler fires and moves to `ReadyToSend`. -/
theorem C3_align_window_witness :
    ((shouldSend ⟨300, 53, stateAlignWait, 0, 1000, 1000⟩ ⟨1010, 56, true⟩).1 = true ↔
      (53 : Int) ≤ 56 ∧ (56 : Int) ≤ 59) ∧
    ((shouldSend ⟨300, 53, stateAlignWait, 0, 1000, 1000⟩ ⟨1010, 56, true⟩).1 = true →
      (shouldSend ⟨300, 53, stateAlignWait, 0, 1000, 1000⟩ ⟨1010, 56, true⟩).2.state
        = stateReadyToSend) ∧
    ((shouldSend ⟨300, 53, stateAlignWait, 0, 1000, 1000⟩ ⟨1010, 56, true⟩).1 = false →
      (shouldSend ⟨300, 53, stateAlignWait, 0, 1000, 1000⟩ ⟨1010, 56, true⟩).2
        = ⟨300, 53, stateAlignWait, 0, 1000, 1000⟩) :=
  C3_align_window ⟨300, 53, stateAlignWait, 0, 1000, 1000⟩ ⟨1010, 56, true⟩
    rfl (by decide) (by decide) (by decide)

/-- C6: after `recordSend()` at time `t`, any `shouldSend()` call whose
32-bit elapsed time `now − t` is below `intervalSeconds` returns false and
leaves the scheduler unchanged, still in `IntervalWait`. -/
theorem C6_interval_holds (s : Scheduler) (t t2 : TimeObs)
    (hv : 10 ≤ s.intervalSeconds ∧ s.intervalSeconds ≤ 1800)
    (h : u32sub t2.currentTime t.currentTime < intToU32 s.intervalSeconds) :
    (shouldSend (recordSend s t) t2).1 = false ∧
    (shouldSend (recordSend s t) t2).2 = recordSend s t ∧
    (shouldSend (recordSend s t) t2).2.state = stateIntervalWait := by
  have hst : (recordSend s t).state = stateIntervalWait := rfl
  have hel : hasIntervalElapsed (recordSend s t) t2 = false := by
    simp only [hasIntervalElapsed, ge_iff_le, decide_eq_false_iff_not, not_le]
    exact h
  simp [shouldSend, hst, hel]

/-- Witness for C6: interval 300 s, send recorded at 1000, query at 1100. -/
theorem C6_interval_holds_witness :
    (shouldSend (recordSend ⟨300, 53, stateBootSend, 0, 0, 0⟩ ⟨1000, 5, true⟩)
        ⟨1100, 20, true⟩).1 = false ∧
    (shouldSend (recordSend ⟨300, 53, stateBootSend, 0, 0, 0⟩ ⟨1000, 5, true⟩)
        ⟨1100, 20, true⟩).2
      = recordSend ⟨300, 53, stateBootSend, 0, 0, 0⟩ ⟨1000, 5, true⟩ ∧
    (shouldSend (recordSend ⟨300, 53, stateBootSend, 0, 0, 0⟩ ⟨1000, 5, true⟩)
        ⟨1100, 20, true⟩).2.state = stateIntervalWait :=
  C6_interval_holds ⟨300, 53, stateBootSend, 0, 0, 0⟩ ⟨1000, 5, true⟩
    ⟨1100, 20, true⟩ (by decide) (by decide)

/-- C7: `shouldReboot()` is true exactly while in a failure streak whose
duration `now − firstFailureTime` has reached 1800000 ms; it stays true as
time advances (absent 32-bit wrap-around), and a `recordSuccess()` makes it
false. -/
theorem C7_shouldReboot (b : Backoff) (now now2 : Nat)
    (hstart : b.firstFailureTime ≤ now) (hle : now ≤ now2)
    (hnowrap : now2 - b.firstFailureTime < U32MOD) :
    (shouldReboot b now = true ↔
      b.inFailureState = true ∧ 1800000 ≤ now - b.firstFailureTime) ∧
    (shouldReboot b now = true → shouldReboot b now2 = true) ∧
    shouldReboot (recordSuccess b) now2 = false := by
  have hsub : u32sub now b.firstFailureTime = now - b.firstFailureTime :=
    u32sub_eq_sub _ _ hstart (by omega)
  have hsub2 : u32sub now2 b.firstFailureTime = now2 - b.firstFailureTime :=
    u32sub_eq_sub _ _ (le_trans hstart hle) hnowrap
  have hrs : shouldReboot (recordSuccess b) now2 = false := by
    simp [shouldReboot, recordSuccess]
  cases hb : b.inFailureState
  · have h1 : shouldReboot b now = false := by simp [shouldReboot, hb]
    simp [h1, hb, hrs]
  · have e1 : shouldReboot b now = decide (1800000 ≤ now - b.firstFailureTime) := by
      simp [shouldReboot, getFailureDurationMs, hb, hsub,
        REBOOT_AFTER_FAILURE_MS, ge_iff_le]
    have e2 : shouldReboot b now2 = decide (1800000 ≤ now2 - b.firstFailureTime) := by
      simp [shouldReboot, getFailureDurationMs, hb, hsub2,
        REBOOT_AFTER_FAILURE_MS, ge_iff_le]
    refine ⟨?_, ?_, hrs⟩
    · rw [e1]
      simp
    · rw [e1, e2]
      simp only [decide_eq_true_eq]
      intro hge
      omega

/-- Witness for C7: streak started at 100 ms, queried at 1800100 and
1800200 ms — reboot due at both. -/
theorem C7_shouldReboot_witness :
    (shouldReboot ⟨300000, 100, true⟩ 1800100 = true ↔
      (Backoff.mk 300000 100 true).inFailureState = true ∧
        1800000 ≤ 1800100 - (Backoff.mk 300000 100 true).firstFailureTime) ∧
    (shouldReboot ⟨300000, 100, true⟩ 1800100 = true →
      shouldReboot ⟨300000, 100, true⟩ 1800200 = true) ∧
    shouldReboot (recordSuccess ⟨300000, 100, true⟩) 1800200 = false :=
  C7_shouldReboot ⟨300000, 100, true⟩ 1800100 1800200
    (by decide) (by decide) (by decide)

/-- C8: with a fixed clock observation, a second `shouldSend()` call right
after a first one returns the same boolean and changes no field, so across
any number of repeated calls only the first can transition the state. -/
theorem C8_idempotent (s : Scheduler) (t : TimeObs) :
    (shouldSend (shouldSend s t).2 t).1 = (shouldSend s t).1 ∧
    (shouldSend (shouldSend s t).2 t).2 = (shouldSend s t).2 ∧
    ∀ n, (fun x => (shouldSend x t).2)^[n] (shouldSend s t).2 = (shouldSend s t).2 := by
  have key : (shouldSend (shouldSend s t).2 t).1 = (shouldSend s t).1 ∧
      (shouldSend (shouldSend s t).2 t).2 = (shouldSend s t).2 := by
    rcases s with ⟨i, a, st, l, iv, aw⟩
    cases st
    case stateBootSend => exact ⟨rfl, rfl⟩
    case stateReadyToSend => exact ⟨rfl, rfl⟩
    case stateIntervalWait =>
      simp only [shouldSend]
      by_cases he : hasIntervalElapsed ⟨i, a, stateIntervalWait, l, iv, aw⟩ t = true
      · rw [if_pos he]
        by_cases hsk : shouldSkipAlignment ⟨i, a, stateIntervalWait, l, iv, aw⟩ t = true
        · rw [if_pos hsk]
          exact ⟨rfl, rfl⟩
        · rw [if_neg hsk]
          by_cases hA :
              isAlignedSecond ⟨i, a, stateAlignWait, l, iv, t.currentTime⟩ t = true
          · rw [if_pos hA]
            exact ⟨rfl, rfl⟩
          · rw [if_neg hA]
            have hto :
                hasAlignWaitTimedOut ⟨i, a, stateAlignWait, l, iv, t.currentTime⟩ t
                  = false := by
              simp [hasAlignWaitTimedOut, SCHED_MAX_ALIGN_WAIT_SEC, u32sub_self]
            simp [shouldSend, hto, hA]
      · rw [if_neg he]
        simp [shouldSend, he]
    case stateAlignWait =>
      simp only [shouldSend]
      by_cases hto : hasAlignWaitTimedOut ⟨i, a, stateAlignWait, l, iv, aw⟩ t = true
      · rw [if_pos hto]
        exact ⟨rfl, rfl⟩
      · rw [if_neg hto]
        by_cases hA : isAlignedSecond ⟨i, a, stateAlignWait, l, iv, aw⟩ t = true
        · rw [if_pos hA]
          exact ⟨rfl, rfl⟩
        · rw [if_neg hA]
          simp [shouldSend, hto, hA]
  exact ⟨key.1, key.2, fun n => Function.iterate_fixed key.2 n⟩

/-- C9, counterexample: scheduler in `AlignWait` with `alignSecond = 53`,
current second 55 — the target second has passed, yet the code returns 0
(the window extends to :59), not the claimed wrap value `(60 − 55) + 53`. -/
theorem C9_counterexample :
    getSecondsUntilSend ⟨300, 53, stateAlignWait, 0, 0, 0⟩ ⟨1000, 55, true⟩ = 0 ∧
    ((60 : Int) - 55) + 53 ≠ 0 := by
  decide

/-- C9 (amended): `getSecondsUntilSend()` returns 0 in `BootSend` and
`ReadyToSend`; in `IntervalWait` with the interval not yet elapsed it
returns the remaining interval seconds; in `AlignWait` it returns 0 whenever
the current second has reached or passed `alignSecond` (the window extends
to :59) and `alignSecond − currentSecond` when the current second is still
below `alignSecond` — the minute-wrap branch is unreachable for
seconds-of-minute in `[0, 59]`. -/
theorem C9_getSecondsUntilSend (s : Scheduler) (t : TimeObs)
    (h0 : 0 ≤ t.secondOfMinute) (h59 : t.secondOfMinute ≤ 59) :
    ((s.state = stateBootSend ∨ s.state = stateReadyToSend) →
      getSecondsUntilSend s t = 0) ∧
    (s.state = stateIntervalWait →
      u32sub t.currentTime s.intervalStartTime < intToU32 s.intervalSeconds →
      getSecondsUntilSend s t
        = s.intervalSeconds - (u32sub t.currentTime s.intervalStartTime : Int)) ∧
    (s.state = stateAlignWait →
      getSecondsUntilSend s t =
        if s.alignToSecond ≤ t.secondOfMinute then 0
        else s.alignToSecond - t.secondOfMinute) := by
  refine ⟨?_, ?_, ?_⟩
  · intro h
    unfold getSecondsUntilSend
    rw [if_pos h]
  · intro h hlt
    have hcond : ¬(s.state = stateBootSend ∨ s.state = stateReadyToSend) := by
      rw [h]
      simp
    unfold getSecondsUntilSend
    rw [if_neg hcond, if_pos h]
    simp only []
    rw [if_neg (by omega)]
  · intro h
    have hcond : ¬(s.state = stateBootSend ∨ s.state = stateReadyToSend) := by
      rw [h]
      simp
    have hcond2 : ¬ s.state = stateIntervalWait := by
      rw [h]
      simp
    unfold getSecondsUntilSend
    rw [if_neg hcond, if_neg hcond2, if_pos h]
    by_cases hal : s.alignToSecond ≤ t.secondOfMinute
    · rw [if_pos ⟨hal, h59⟩, if_pos hal]
    · rw [if_neg (fun hc => hal hc.1), if_pos (not_le.mp hal), if_neg hal]

/-- Witness for C9 at a concrete scheduler in `AlignWait`, current second
40, target 53. -/
theorem C9_getSecondsUntilSend_witness :
    (((⟨300, 53, stateAlignWait, 0, 0, 0⟩ : Scheduler).state = stateBootSend ∨
        (⟨300, 53, stateAlignWait, 0, 0, 0⟩ : Scheduler).state = stateReadyToSend) →
      getSecondsUntilSend ⟨300, 53, stateAlignWait, 0, 0, 0⟩ ⟨1000, 40, true⟩ = 0) ∧
    ((⟨300, 53, stateAlignWait, 0, 0, 0⟩ : Scheduler).state = stateIntervalWait →
      u32sub 1000 (0 : Nat) < intToU32 300 →
      getSecondsUntilSend ⟨300, 53, stateAlignWait, 0, 0, 0⟩ ⟨1000, 40, true⟩
        = 300 - (u32sub 1000 (0 : Nat) : Int)) ∧
    ((⟨300, 53, stateAlignWait, 0, 0, 0⟩ : Scheduler).state = stateAlignWait →
      getSecondsUntilSend ⟨300, 53, stateAlignWait, 0, 0, 0⟩ ⟨1000, 40, true⟩
        = if (53 : Int) ≤ 40 then 0 else 53 - 40) :=
  C9_getSecondsUntilSend ⟨300, 53, stateAlignWait, 0, 0, 0⟩ ⟨1000, 40, true⟩
    (by decide) (by decide)
